import Mathlib

/-!
Shallow embedding of `setup.py` of the `kr_publisher` repository.

The whole source file is a single `setuptools.setup(...)` call with keyword
arguments. We model a Python value that can appear as a keyword argument of
that call, and the call itself as the ordered list of its keyword arguments,
transcribed verbatim from `src/setup.py`.
-/

/-- A Python value appearing as a keyword argument of the `setup` call:
a string literal, a boolean literal, a list of string literals, or the
result of a call to `find_packages` with the given positional arguments. -/
inductive SetupValue where
  | str (s : String)
  | boolean (b : Bool)
  | strList (l : List String)
  | findPackagesResult (args : List String)
deriving DecidableEq, Repr

/-- The keyword arguments of the `setup(...)` call in `src/setup.py`,
in source order, with their values. `packages=find_packages()` is a call
to `find_packages` with no arguments. -/
def setupKwargs : List (String × SetupValue) :=
  [ ("name", SetupValue.str "insights_publisher"),
    ("description", SetupValue.str "A package to streamline publication workflows for Knowledge Repo and tie published work to GitHub commits."),
    ("url", SetupValue.str "https://github.com/CPapadim/insights_publisher"),
    ("version", SetupValue.str "0.1.0"),
    ("author", SetupValue.str "Charalampos Papadimitriou"),
    ("author_email", SetupValue.str "papadimitriou.c@gmail.com"),
    ("license", SetupValue.str "MIT"),
    ("packages", SetupValue.findPackagesResult []),
    ("zip_safe", SetupValue.boolean false),
    ("scripts", SetupValue.strList ["insights_publisher/publisher"]) ]

/-- The metadata fields enumerated by the spec for the setup call:
name, description, URL, version, author (with author email), license,
the package list, and the single entry-point script reference. -/
def specEnumeratedKeys : List String :=
  ["name", "description", "url", "version", "author", "author_email",
   "license", "packages", "scripts"]

/-- C1: the setup call declares exactly one entry-point script, the
one-element list whose sole element is 'insights_publisher/publisher'. -/
theorem scripts_is_single_publisher :
    setupKwargs.lookup "scripts" =
      some (SetupValue.strList ["insights_publisher/publisher"]) := by
  decide

/-- C2 counterexample: the claim that every keyword argument of the setup
call lies in the spec's enumeration is false — `zip_safe` is a keyword
argument of the call that the enumeration does not contain. -/
theorem kwargs_not_all_enumerated :
    (setupKwargs.all (fun kv => specEnumeratedKeys.contains kv.1)) = false := by
  decide

/-- C2 amended: the keyword arguments of the setup call are exactly
name, description, url, version, author, author_email, license, packages,
zip_safe and scripts — the spec's enumeration plus `zip_safe`. -/
theorem kwargs_are_enumeration_plus_zip_safe :
    setupKwargs.map Prod.fst =
      ["name", "description", "url", "version", "author", "author_email",
       "license", "packages", "zip_safe", "scripts"] ∧
    (setupKwargs.all
      (fun kv => (specEnumeratedKeys ++ ["zip_safe"]).contains kv.1)) = true := by
  constructor
  · rfl
  · decide

/-- C3: the name given to the setup call is exactly 'insights_publisher'. -/
theorem name_is_insights_publisher :
    setupKwargs.lookup "name" = some (SetupValue.str "insights_publisher") := by
  decide

/-- C4: the version given to the setup call is exactly '0.1.0'. -/
theorem version_is_0_1_0 :
    setupKwargs.lookup "version" = some (SetupValue.str "0.1.0") := by
  decide

/-- C5: the license given to the setup call is exactly 'MIT'. -/
theorem license_is_MIT :
    setupKwargs.lookup "license" = some (SetupValue.str "MIT") := by
  decide

/-- C6: the packages argument is the result of `find_packages()` with no
arguments; no explicit package list is given for `packages`, and no
`install_requires` dependency list is declared in the setup call. -/
theorem packages_via_find_packages :
    setupKwargs.lookup "packages" = some (SetupValue.findPackagesResult []) ∧
    setupKwargs.lookup "install_requires" = none := by
  constructor
  · decide
  · decide

/-- C7: the description given to the setup call is exactly the sentence
about streamlining publication workflows for Knowledge Repo and tying
published work to GitHub commits. -/
theorem description_is_publication_workflows :
    setupKwargs.lookup "description" =
      some (SetupValue.str "A package to streamline publication workflows for Knowledge Repo and tie published work to GitHub commits.") := by
  decide

/-- C8: no keyword argument of the setup call is an `entry_points` or
`console_scripts` declaration, and the only executable surface declared is
the single `scripts` entry, a one-element list. -/
theorem no_entry_points_only_scripts :
    (setupKwargs.all
      (fun kv => !(kv.1 == "entry_points") && !(kv.1 == "console_scripts"))) = true ∧
    setupKwargs.lookup "entry_points" = none ∧
    setupKwargs.lookup "scripts" =
      some (SetupValue.strList ["insights_publisher/publisher"]) := by
  refine ⟨by decide, by decide, by decide⟩

/-- C9: the setup call sets `zip_safe` to False. -/
theorem zip_safe_is_false :
    setupKwargs.lookup "zip_safe" = some (SetupValue.boolean false) := by
  decide

/-- C10: the url given to the setup call is exactly
'https://github.com/CPapadim/insights_publisher'. -/
theorem url_is_github_insights_publisher :
    setupKwargs.lookup "url" =
      some (SetupValue.str "https://github.com/CPapadim/insights_publisher") := by
  decide
